import Mathlib

/-!
Verification of `holidays_ch.py` from SwissHolidayOptimizer: Swiss public
holidays per canton (fixed and movable rules), the anonymous Gregorian
Easter algorithm, and the bridge-day optimization.

Dates are embedded as day numbers (days since 0000-03-01 in the proleptic
Gregorian calendar); Python `datetime.date` arithmetic (`+ timedelta`,
ordering, `.weekday()`) becomes plain `Nat` arithmetic on day numbers.
Fallible date construction (`datetime.date(y, m, d)` raising `ValueError`)
becomes `Option Nat`.
-/

namespace SwissHolidays

/-- Gregorian leap-year test. -/
def isLeap (y : Nat) : Bool :=
  y % 4 == 0 && (y % 100 != 0 || y % 400 == 0)

/-- Number of days of month `m` in year `y` (Gregorian). -/
def daysInMonth (y m : Nat) : Nat :=
  if m == 2 then (if isLeap y then 29 else 28)
  else if m == 4 || m == 6 || m == 9 || m == 11 then 30
  else 31

/-- Day number of the Gregorian date `y-m-d` (days since 0000-03-01,
using the standard shifted-month formula). Assumes `1 ≤ m ≤ 12`. -/
def toRD (y m d : Nat) : Nat :=
  let yy := if m < 3 then y - 1 else y
  let mp := (m + 9) % 12
  365 * yy + yy / 4 - yy / 100 + yy / 400 + (153 * mp + 2) / 5 + (d - 1)

/-- Checked date construction: models Python `datetime.date(y, m, d)`,
which raises for an invalid month or day. -/
def mkDate? (y m d : Nat) : Option Nat :=
  if 1 ≤ m ∧ m ≤ 12 ∧ 1 ≤ d ∧ d ≤ daysInMonth y m then some (toRD y m d)
  else none

/-- Weekday of a day number, Python convention: 0 = Monday … 6 = Sunday. -/
def weekday (rd : Nat) : Nat :=
  (rd + 2) % 7

/-- Function `get_easter`: Easter Sunday via the anonymous Gregorian algorithm.
All intermediate quantities are non-negative, so `Nat` division and
subtraction agree with Python's integer arithmetic here. -/
def get_easter (year : Nat) : Option Nat :=
  let a := year % 19
  let b := year / 100
  let c := year % 100
  let d := b / 4
  let e := b % 4
  let f := (b + 8) / 25
  let g := (b - f + 1) / 3
  let h := (19 * a + b - d - g + 15) % 30
  let i := c / 4
  let k := c % 4
  let l := (32 + 2 * e + 2 * i - h - k) % 7
  let m := (a + 11 * h + 22 * l) / 451
  let month := (h + l - 7 * m + 114) / 31
  let day := (h + l - 7 * m + 114) % 31
  mkDate? year month (day + 1)

/-- Function `_bettag`: third Sunday of September. `(6 - wd) % 7` is written
`(6 + 7 - wd) % 7` so that `Nat` subtraction cannot truncate; the two
agree because `wd ≤ 6`. -/
def bettag (year : Nat) : Option Nat :=
  (mkDate? year 9 1).map fun sep1 =>
    let offset := (6 + 7 - weekday sep1) % 7
    sep1 + offset + 14

/-- Function `_bettag_monday`: Monday after Bettag. -/
def bettag_monday (year : Nat) : Option Nat :=
  (bettag year).map (· + 1)

/-- Function `_jeune_genevois`: Thursday after the first Sunday of September. -/
def jeune_genevois (year : Nat) : Option Nat :=
  (mkDate? year 9 1).map fun sep1 =>
    let offset := (6 + 7 - weekday sep1) % 7
    sep1 + offset + 4

/-- Function `_naefelser_fahrt`: first Thursday of April. `(3 - wd) % 7` is
written `(3 + 7 - wd) % 7` to keep `Nat` subtraction exact; the two agree
in Python's signed arithmetic because the result is taken mod 7. -/
def naefelser_fahrt (year : Nat) : Option Nat :=
  (mkDate? year 4 1).map fun apr1 =>
    let offset := (3 + 7 - weekday apr1) % 7
    apr1 + offset

/-- Function `_easter_offset(days)`: factory adding `days` (possibly negative) to
Easter Sunday. -/
def easter_offset (days : Int) (year : Nat) : Option Nat :=
  (get_easter year).map fun e => ((e : Int) + days).toNat

/-- A holiday rule: a fixed `(month, day)` pair or a callable
`year → date` (the source stores either a tuple or a function). -/
inductive HolidayRule where
  | fixed (month day : Nat)
  | movable (f : Nat → Option Nat)

/-- Evaluate a rule at a year, mirroring the `callable(spec)` dispatch in
`get_holidays`. -/
def evalRule (year : Nat) : HolidayRule → Option Nat
  | .fixed month day => mkDate? year month day
  | .movable f => f year

-- Shared holiday constants (the source's module-level `_NEUJAHR` … tuples).

def NEUJAHR : String × HolidayRule := ("Neujahr", .fixed 1 1)

def BERCHTOLDSTAG : String × HolidayRule := ("Berchtoldstag", .fixed 1 2)

def HEILIGE_DREI : String × HolidayRule := ("Heilige Drei Könige", .fixed 1 6)

def JOSEFSTAG : String × HolidayRule := ("Josefstag", .fixed 3 19)

def KARFREITAG : String × HolidayRule := ("Karfreitag", .movable (easter_offset (-2)))

def OSTERSONNTAG : String × HolidayRule := ("Ostersonntag", .movable (easter_offset 0))

def OSTERMONTAG : String × HolidayRule := ("Ostermontag", .movable (easter_offset 1))

def TAG_DER_ARBEIT : String × HolidayRule := ("Tag der Arbeit", .fixed 5 1)

def AUFFAHRT : String × HolidayRule := ("Auffahrt (Christi Himmelfahrt)", .movable (easter_offset 39))

def PFINGSTSONNTAG : String × HolidayRule := ("Pfingstsonntag", .movable (easter_offset 49))

def PFINGSTMONTAG : String × HolidayRule := ("Pfingstmontag", .movable (easter_offset 50))

def FRONLEICHNAM : String × HolidayRule := ("Fronleichnam", .movable (easter_offset 60))

def BUNDESFEIER : String × HolidayRule := ("Bundesfeiertag", .fixed 8 1)

def MARIA_HIMMELFAHRT : String × HolidayRule := ("Mariä Himmelfahrt", .fixed 8 15)

def ALLERHEILIGEN : String × HolidayRule := ("Allerheiligen", .fixed 11 1)

def MARIA_EMPFAENGNIS : String × HolidayRule := ("Mariä Empfängnis", .fixed 12 8)

def WEIHNACHTEN : String × HolidayRule := ("Weihnachten", .fixed 12 25)

def STEPHANSTAG : String × HolidayRule := ("Stephanstag", .fixed 12 26)

def BETTAG_MO : String × HolidayRule := ("Bettagsmontag", .movable bettag_monday)

def NAEFELSER_FAHRT : String × HolidayRule := ("Näfelser Fahrt", .movable naefelser_fahrt)

/-- The 26 valid canton codes with display names (`CANTONS`), in the
source dict's insertion order. -/
def CANTONS : List (String × String) :=
  [("AG", "Aargau"), ("AI", "Appenzell Innerrhoden"), ("AR", "Appenzell Ausserrhoden"),
   ("BE", "Bern"), ("BL", "Basel-Landschaft"), ("BS", "Basel-Stadt"),
   ("FR", "Freiburg"), ("GE", "Genf"), ("GL", "Glarus"), ("GR", "Graubünden"),
   ("JU", "Jura"), ("LU", "Luzern"), ("NE", "Neuenburg"), ("NW", "Nidwalden"),
   ("OW", "Obwalden"), ("SG", "St. Gallen"), ("SH", "Schaffhausen"),
   ("SO", "Solothurn"), ("SZ", "Schwyz"), ("TG", "Thurgau"), ("TI", "Tessin"),
   ("UR", "Uri"), ("VD", "Waadt"), ("VS", "Wallis"), ("ZG", "Zug"), ("ZH", "Zürich")]

def VALID_YEAR_RANGE : Int × Int := (2020, 2035)

/-- Table `CANTON_HOLIDAYS`: per-canton ordered holiday rule lists, in the
source dict's insertion order. -/
def CANTON_HOLIDAYS : List (String × List (String × HolidayRule)) :=
  [("ZH",
    [NEUJAHR, BERCHTOLDSTAG, KARFREITAG, OSTERSONNTAG, OSTERMONTAG,
     TAG_DER_ARBEIT, AUFFAHRT, PFINGSTSONNTAG, PFINGSTMONTAG,
     BUNDESFEIER, BETTAG_MO, WEIHNACHTEN, STEPHANSTAG]),
   ("BE",
    [NEUJAHR, BERCHTOLDSTAG, KARFREITAG, OSTERSONNTAG, OSTERMONTAG,
     AUFFAHRT, PFINGSTSONNTAG, PFINGSTMONTAG,
     BUNDESFEIER, BETTAG_MO, WEIHNACHTEN, STEPHANSTAG]),
   ("LU",
    [NEUJAHR, BERCHTOLDSTAG, HEILIGE_DREI, JOSEFSTAG,
     KARFREITAG, OSTERSONNTAG, OSTERMONTAG,
     AUFFAHRT, PFINGSTSONNTAG, PFINGSTMONTAG, FRONLEICHNAM,
     BUNDESFEIER, MARIA_HIMMELFAHRT, ALLERHEILIGEN,
     MARIA_EMPFAENGNIS, WEIHNACHTEN, STEPHANSTAG]),
   ("UR",
    [NEUJAHR, HEILIGE_DREI, JOSEFSTAG,
     KARFREITAG, OSTERSONNTAG, OSTERMONTAG,
     AUFFAHRT, PFINGSTSONNTAG, PFINGSTMONTAG, FRONLEICHNAM,
     BUNDESFEIER, MARIA_HIMMELFAHRT, ALLERHEILIGEN,
     MARIA_EMPFAENGNIS, WEIHNACHTEN, STEPHANSTAG]),
   ("SZ",
    [NEUJAHR, HEILIGE_DREI, JOSEFSTAG,
     KARFREITAG, OSTERSONNTAG, OSTERMONTAG,
     AUFFAHRT, PFINGSTSONNTAG, PFINGSTMONTAG, FRONLEICHNAM,
     BUNDESFEIER, MARIA_HIMMELFAHRT, ALLERHEILIGEN,
     MARIA_EMPFAENGNIS, WEIHNACHTEN, STEPHANSTAG]),
   ("OW",
    [NEUJAHR, BERCHTOLDSTAG, HEILIGE_DREI, JOSEFSTAG,
     KARFREITAG, OSTERSONNTAG, OSTERMONTAG,
     AUFFAHRT, PFINGSTSONNTAG, PFINGSTMONTAG, FRONLEICHNAM,
     ("Bruder Klaus", .fixed 9 25),
     BUNDESFEIER, MARIA_HIMMELFAHRT, ALLERHEILIGEN,
     MARIA_EMPFAENGNIS, WEIHNACHTEN, STEPHANSTAG]),
   ("NW",
    [NEUJAHR, HEILIGE_DREI, JOSEFSTAG,
     KARFREITAG, OSTERSONNTAG, OSTERMONTAG,
     AUFFAHRT, PFINGSTSONNTAG, PFINGSTMONTAG, FRONLEICHNAM,
     BUNDESFEIER, MARIA_HIMMELFAHRT, ALLERHEILIGEN,
     MARIA_EMPFAENGNIS, WEIHNACHTEN, STEPHANSTAG]),
   ("GL",
    [NEUJAHR, BERCHTOLDSTAG, KARFREITAG, OSTERSONNTAG, OSTERMONTAG,
     NAEFELSER_FAHRT,
     AUFFAHRT, PFINGSTSONNTAG, PFINGSTMONTAG,
     BUNDESFEIER, ALLERHEILIGEN,
     WEIHNACHTEN, STEPHANSTAG]),
   ("ZG",
    [NEUJAHR, BERCHTOLDSTAG, HEILIGE_DREI, JOSEFSTAG,
     KARFREITAG, OSTERSONNTAG, OSTERMONTAG,
     AUFFAHRT, PFINGSTSONNTAG, PFINGSTMONTAG, FRONLEICHNAM,
     BUNDESFEIER, MARIA_HIMMELFAHRT, ALLERHEILIGEN,
     MARIA_EMPFAENGNIS, WEIHNACHTEN, STEPHANSTAG]),
   ("FR",
    [NEUJAHR, BERCHTOLDSTAG,
     KARFREITAG, OSTERSONNTAG, OSTERMONTAG,
     AUFFAHRT, PFINGSTSONNTAG, PFINGSTMONTAG, FRONLEICHNAM,
     BUNDESFEIER, MARIA_HIMMELFAHRT,
     ALLERHEILIGEN, MARIA_EMPFAENGNIS,
     WEIHNACHTEN, STEPHANSTAG]),
   ("SO",
    [NEUJAHR, BERCHTOLDSTAG, KARFREITAG, OSTERSONNTAG, OSTERMONTAG,
     TAG_DER_ARBEIT, AUFFAHRT, PFINGSTSONNTAG, PFINGSTMONTAG,
     FRONLEICHNAM, BUNDESFEIER, MARIA_HIMMELFAHRT,
     ALLERHEILIGEN, WEIHNACHTEN, STEPHANSTAG]),
   ("BS",
    [NEUJAHR, KARFREITAG, OSTERSONNTAG, OSTERMONTAG,
     TAG_DER_ARBEIT, AUFFAHRT, PFINGSTSONNTAG, PFINGSTMONTAG,
     BUNDESFEIER, WEIHNACHTEN, STEPHANSTAG]),
   ("BL",
    [NEUJAHR, KARFREITAG, OSTERSONNTAG, OSTERMONTAG,
     TAG_DER_ARBEIT, AUFFAHRT, PFINGSTSONNTAG, PFINGSTMONTAG,
     BUNDESFEIER, WEIHNACHTEN, STEPHANSTAG]),
   ("SH",
    [NEUJAHR, BERCHTOLDSTAG, KARFREITAG, OSTERSONNTAG, OSTERMONTAG,
     TAG_DER_ARBEIT, AUFFAHRT, PFINGSTSONNTAG, PFINGSTMONTAG,
     BUNDESFEIER, BETTAG_MO, WEIHNACHTEN, STEPHANSTAG]),
   ("AR",
    [NEUJAHR, BERCHTOLDSTAG, KARFREITAG, OSTERSONNTAG, OSTERMONTAG,
     AUFFAHRT, PFINGSTSONNTAG, PFINGSTMONTAG,
     BUNDESFEIER, BETTAG_MO, WEIHNACHTEN, STEPHANSTAG]),
   ("AI",
    [NEUJAHR, HEILIGE_DREI, JOSEFSTAG,
     KARFREITAG, OSTERSONNTAG, OSTERMONTAG,
     AUFFAHRT, PFINGSTSONNTAG, PFINGSTMONTAG, FRONLEICHNAM,
     BUNDESFEIER, MARIA_HIMMELFAHRT, ALLERHEILIGEN,
     MARIA_EMPFAENGNIS, WEIHNACHTEN, STEPHANSTAG]),
   ("SG",
    [NEUJAHR, KARFREITAG, OSTERSONNTAG, OSTERMONTAG,
     AUFFAHRT, PFINGSTSONNTAG, PFINGSTMONTAG,
     BUNDESFEIER, ALLERHEILIGEN,
     WEIHNACHTEN, STEPHANSTAG]),
   ("GR",
    [NEUJAHR, BERCHTOLDSTAG, HEILIGE_DREI, JOSEFSTAG,
     KARFREITAG, OSTERSONNTAG, OSTERMONTAG,
     AUFFAHRT, PFINGSTSONNTAG, PFINGSTMONTAG, FRONLEICHNAM,
     BUNDESFEIER, MARIA_HIMMELFAHRT, ALLERHEILIGEN,
     MARIA_EMPFAENGNIS, WEIHNACHTEN, STEPHANSTAG]),
   ("AG",
    [NEUJAHR, BERCHTOLDSTAG, KARFREITAG, OSTERSONNTAG, OSTERMONTAG,
     AUFFAHRT, PFINGSTSONNTAG, PFINGSTMONTAG,
     FRONLEICHNAM, BUNDESFEIER, MARIA_HIMMELFAHRT,
     ALLERHEILIGEN, WEIHNACHTEN, STEPHANSTAG]),
   ("TG",
    [NEUJAHR, BERCHTOLDSTAG, KARFREITAG, OSTERSONNTAG, OSTERMONTAG,
     TAG_DER_ARBEIT, AUFFAHRT, PFINGSTSONNTAG, PFINGSTMONTAG,
     BUNDESFEIER, BETTAG_MO, WEIHNACHTEN, STEPHANSTAG]),
   ("TI",
    [NEUJAHR, HEILIGE_DREI,
     JOSEFSTAG, OSTERSONNTAG, OSTERMONTAG,
     TAG_DER_ARBEIT, AUFFAHRT, PFINGSTSONNTAG, PFINGSTMONTAG,
     FRONLEICHNAM,
     ("San Pietro e Paolo", .fixed 6 29),
     BUNDESFEIER, MARIA_HIMMELFAHRT, ALLERHEILIGEN,
     MARIA_EMPFAENGNIS, WEIHNACHTEN, STEPHANSTAG]),
   ("VD",
    [NEUJAHR, BERCHTOLDSTAG, KARFREITAG, OSTERSONNTAG, OSTERMONTAG,
     AUFFAHRT, PFINGSTSONNTAG, PFINGSTMONTAG,
     BUNDESFEIER,
     BETTAG_MO,
     WEIHNACHTEN]),
   ("VS",
    [NEUJAHR, JOSEFSTAG,
     KARFREITAG, OSTERSONNTAG, OSTERMONTAG,
     AUFFAHRT, PFINGSTSONNTAG, PFINGSTMONTAG, FRONLEICHNAM,
     BUNDESFEIER, MARIA_HIMMELFAHRT, ALLERHEILIGEN,
     MARIA_EMPFAENGNIS, WEIHNACHTEN, STEPHANSTAG]),
   ("NE",
    [NEUJAHR, BERCHTOLDSTAG,
     ("Instauration de la République", .fixed 3 1),
     KARFREITAG, OSTERSONNTAG, OSTERMONTAG,
     TAG_DER_ARBEIT, AUFFAHRT, PFINGSTSONNTAG, PFINGSTMONTAG,
     FRONLEICHNAM, BUNDESFEIER,
     BETTAG_MO, WEIHNACHTEN]),
   ("GE",
    [NEUJAHR,
     KARFREITAG, OSTERSONNTAG, OSTERMONTAG,
     AUFFAHRT, PFINGSTSONNTAG, PFINGSTMONTAG,
     BUNDESFEIER,
     ("Jeûne genevois", .movable jeune_genevois),
     ("Restauration de la République", .fixed 12 31),
     WEIHNACHTEN]),
   ("JU",
    [NEUJAHR, BERCHTOLDSTAG,
     KARFREITAG, OSTERSONNTAG, OSTERMONTAG,
     TAG_DER_ARBEIT, AUFFAHRT, PFINGSTSONNTAG, PFINGSTMONTAG,
     FRONLEICHNAM, BUNDESFEIER,
     ("Plébiscite jurassien", .fixed 6 23),
     MARIA_HIMMELFAHRT, ALLERHEILIGEN,
     WEIHNACHTEN])]

/-- Function `validate_inputs`: error message for an unknown canton or an
out-of-range year, `none` for valid inputs. -/
def validate_inputs (canton : String) (year : Int) : Option String :=
  if (CANTONS.lookup canton).isNone then
    some ("Ungültiger Kanton: " ++ canton)
  else if year < VALID_YEAR_RANGE.1 ∨ year > VALID_YEAR_RANGE.2 then
    some "Jahr muss zwischen 2020 und 2035 liegen."
  else
    none

/-- A resolved holiday dict with name, date and weekday fields. -/
structure Holiday where
  name : String
  date : Nat
  wtag : String
  deriving DecidableEq, Repr

def WEEKDAYS_DE : List String :=
  ["Montag", "Dienstag", "Mittwoch", "Donnerstag", "Freitag", "Samstag", "Sonntag"]

/-- Stable insertion keyed on the date: the new element goes after every
element with a smaller-or-equal date (Python `list.sort` is stable). -/
def insertByDate (x : Holiday) : List Holiday → List Holiday
  | [] => [x]
  | y :: ys => if y.date ≤ x.date then y :: insertByDate x ys else x :: y :: ys

def sortByDate (l : List Holiday) : List Holiday :=
  l.foldl (fun acc x => insertByDate x acc) []

/-- The resolution loop of `get_holidays` before sorting: evaluate each
catalog entry at `year`; `none` when a `datetime.date` construction would
raise. -/
def resolve_raw (entries : List (String × HolidayRule)) (year : Nat) :
    Option (List Holiday) :=
  entries.mapM fun e =>
    (evalRule year e.2).map fun d =>
      { name := e.1, date := d, wtag := WEEKDAYS_DE.getD (weekday d) "" }

/-- Function `get_holidays`: validate, resolve every catalog entry, sort by date.
A raised `ValueError` (invalid input, or an unreachable invalid date /
missing catalog key) is `Except.error`. -/
def get_holidays (canton : String) (year : Int) : Except String (List Holiday) :=
  match validate_inputs canton year with
  | some e => .error e
  | none =>
    match CANTON_HOLIDAYS.lookup canton with
    | none => .error "KeyError"
    | some entries =>
      match resolve_raw entries year.toNat with
      | none => .error "ValueError: invalid date"
      | some holidays => .ok (sortByDate holidays)

/-- A bridge recommendation dict. The German free-text `recommendation`
field is presentation only (per the spec) and is not modelled. -/
structure BridgeRec where
  holiday_name : String
  holiday_date : Nat
  bridge_date : Nat
  bridge_weekday : String
  free_days : Nat
  deriving DecidableEq, Repr

/-- Stable insertion keyed on `bridge_date` (Python `list.sort` is
stable). -/
def insertByBridge (x : BridgeRec) : List BridgeRec → List BridgeRec
  | [] => [x]
  | y :: ys => if y.bridge_date ≤ x.bridge_date then y :: insertByBridge x ys
               else x :: y :: ys

def sortByBridge (l : List BridgeRec) : List BridgeRec :=
  l.foldl (fun acc x => insertByBridge x acc) []

/-- One iteration of the loop in `calculate_bridge_days`: given the
recommendations so far and the claimed (`seen_bridge_dates`) set, process
one holiday. -/
def bridgeStep (holiday_dates : List Nat) (st : List BridgeRec × List Nat)
    (h : Holiday) : List BridgeRec × List Nat :=
  let (recs, seen) := st
  let d := h.date
  let wd := weekday d
  if wd = 1 then
    let bridge := d - 1
    if bridge ∉ seen ∧ bridge ∉ holiday_dates then
      (recs ++ [{ holiday_name := h.name, holiday_date := d, bridge_date := bridge,
                  bridge_weekday := WEEKDAYS_DE.getD (weekday bridge) "",
                  free_days := 4 }],
       bridge :: seen)
    else (recs, seen)
  else if wd = 3 then
    let bridge := d + 1
    if bridge ∉ seen ∧ bridge ∉ holiday_dates then
      (recs ++ [{ holiday_name := h.name, holiday_date := d, bridge_date := bridge,
                  bridge_weekday := WEEKDAYS_DE.getD (weekday bridge) "",
                  free_days := 4 }],
       bridge :: seen)
    else (recs, seen)
  else if wd = 2 then
    let bridge_before := d - 1
    let bridge_before2 := d - 2
    if bridge_before ∉ holiday_dates ∧ bridge_before2 ∉ holiday_dates ∧
        bridge_before ∉ seen then
      (recs ++ [{ holiday_name := h.name, holiday_date := d,
                  bridge_date := bridge_before2,
                  bridge_weekday := "Montag + Dienstag",
                  free_days := 5 }],
       bridge_before2 :: bridge_before :: seen)
    else (recs, seen)
  else (recs, seen)

/-- Function `calculate_bridge_days`: resolve the holidays, scan them in date
order collecting recommendations and claimed bridge dates, then sort the
recommendations by bridge date. -/
def calculate_bridge_days (canton : String) (year : Int) :
    Except String (List BridgeRec) :=
  (get_holidays canton year).map fun holidays =>
    let holiday_dates := holidays.map (·.date)
    (sortByBridge (holidays.foldl (bridgeStep holiday_dates) ([], [])).1)

/-- The candidate bridge days a holiday proposes under the spec's §4.5
rule, by weekday: Tuesday → preceding Monday, Thursday → following
Friday, Wednesday → preceding Monday and Tuesday, otherwise none. -/
def specCandidates (d : Nat) : List Nat :=
  let wd := weekday d
  if wd = 1 then [d - 1]
  else if wd = 3 then [d + 1]
  else if wd = 2 then [d - 2, d - 1]
  else []

/-- Modelled from the spec's conflict policy (§4.5): a candidate set is
rejected when ANY of its days coincides with a holiday date or was
already claimed by an earlier-processed holiday; on acceptance all its
days are claimed. Differs from `bridgeStep` only in the Wednesday guard,
which here also tests the Monday against the claimed set. -/
def policyStep (holiday_dates : List Nat) (st : List BridgeRec × List Nat)
    (h : Holiday) : List BridgeRec × List Nat :=
  let (recs, seen) := st
  let d := h.date
  let cands := specCandidates d
  if cands = [] then (recs, seen)
  else if cands.any (fun b => b ∈ holiday_dates ∨ b ∈ seen) then (recs, seen)
  else
    let wd := weekday d
    (recs ++ [{ holiday_name := h.name, holiday_date := d,
                bridge_date := cands.headI,
                bridge_weekday :=
                  if wd = 2 then "Montag + Dienstag"
                  else WEEKDAYS_DE.getD (weekday cands.headI) "",
                free_days := if wd = 2 then 5 else 4 }],
     cands.reverse ++ seen)

/-- The optimizer as the spec's words describe it: same pipeline as
`calculate_bridge_days` but with the spec's conflict policy. -/
def calculate_bridge_days_policy (canton : String) (year : Int) :
    Except String (List BridgeRec) :=
  (get_holidays canton year).map fun holidays =>
    let holiday_dates := holidays.map (·.date)
    (sortByBridge (holidays.foldl (policyStep holiday_dates) ([], [])).1)

/-- The bridge days a recommendation blocks out: for a Wednesday holiday
the stored `bridge_date` is the Monday and the pair is Monday‑Tuesday. -/
def bridgeDaysOf (r : BridgeRec) : List Nat :=
  if weekday r.holiday_date = 2 then [r.bridge_date, r.bridge_date + 1]
  else [r.bridge_date]

instance {ε α : Type} [DecidableEq ε] [DecidableEq α] :
    DecidableEq (Except ε α) := fun a b =>
  match a, b with
  | .error e, .error f =>
    if h : e = f then .isTrue (by rw [h])
    else .isFalse (fun hc => h (Except.error.injEq .. ▸ hc))
  | .error _, .ok _ => .isFalse (fun hc => Except.noConfusion hc)
  | .ok _, .error _ => .isFalse (fun hc => Except.noConfusion hc)
  | .ok x, .ok y =>
    if h : x = y then .isTrue (by rw [h])
    else .isFalse (fun hc => h (Except.ok.injEq .. ▸ hc))

/-- Supported years as `Int`, for quantifying claims. -/
def supportedYears : List Int :=
  (List.range' 2020 16).map Int.ofNat

/-- The 26 valid canton codes. -/
def cantonCodes : List String :=
  CANTONS.map Prod.fst

/-- Payload of a successful call, `[]` on error (Python raises instead,
so an error call produces no holidays/recommendations at all). -/
def okList {α : Type} : Except String (List α) → List α
  | .ok l => l
  | .error _ => []

/-- Returns `true` iff the call succeeded (did not raise). -/
def isOk {ε α : Type} : Except ε α → Bool
  | .ok _ => true
  | .error _ => false

/-- The resolution result before sorting, for stating stability. -/
def resolvedUnsorted (canton : String) (year : Int) : List Holiday :=
  ((CANTON_HOLIDAYS.lookup canton).bind fun entries =>
    resolve_raw entries year.toNat).getD []

/-- The weekday rule (spec section 4.5) for a single recommendation: Tuesday holiday →
preceding Monday, 4 free days; Thursday → following Friday, 4 free days;
Wednesday → the preceding Monday–Tuesday pair, exactly 5 free days. Any
recommendation passing this check is tied to a Tue/Wed/Thu holiday, so
holidays on other weekdays generate none. -/
def weekdayRuleB (r : BridgeRec) : Bool :=
  (weekday r.holiday_date == 1 && r.bridge_date == r.holiday_date - 1 &&
    r.free_days == 4 && bridgeDaysOf r == [r.holiday_date - 1]) ||
  (weekday r.holiday_date == 3 && r.bridge_date == r.holiday_date + 1 &&
    r.free_days == 4 && bridgeDaysOf r == [r.holiday_date + 1]) ||
  (weekday r.holiday_date == 2 && r.bridge_date == r.holiday_date - 2 &&
    r.free_days == 5 && bridgeDaysOf r == [r.holiday_date - 2, r.holiday_date - 1] &&
    r.bridge_weekday == "Montag + Dienstag")

def claimC1check (canton : String) (year : Int) : Bool :=
  (okList (calculate_bridge_days canton year)).all weekdayRuleB

/-- Disjointness and uniqueness of bridge days: no bridge day is a
holiday date, and no day is claimed by two recommendations. -/
def claimC2check (canton : String) (year : Int) : Bool :=
  let hdates := (okList (get_holidays canton year)).map (·.date)
  let used := ((okList (calculate_bridge_days canton year)).map bridgeDaysOf).flatten
  used.all (fun b => !(hdates.contains b)) && decide used.Nodup

/-- Easter lands in `[March 22, April 25]` and on a Sunday. -/
def claimC4check (year : Nat) : Bool :=
  match get_easter year with
  | some rd =>
    decide (toRD year 3 22 ≤ rd) && decide (rd ≤ toRD year 4 25) && weekday rd == 6
  | none => false

/-- Adjacent-pairs ascending check on a `Nat` key. -/
def ascendingBy {α : Type} (key : α → Nat) : List α → Bool
  | [] => true
  | [_] => true
  | a :: b :: t => decide (key a ≤ key b) && ascendingBy key (b :: t)

/-- Non-empty, date-ascending, no duplicate `(name, date)` pair, and
date-ties keep catalog order (each date's entries appear in the sorted
output exactly as in the unsorted resolution). -/
def claimC5check (canton : String) (year : Int) : Bool :=
  let hs := okList (get_holidays canton year)
  let raw := resolvedUnsorted canton year
  !hs.isEmpty &&
  ascendingBy (·.date) hs &&
  decide (hs.map fun h => (h.name, h.date)).Nodup &&
  (hs.map (·.date)).all fun d =>
    hs.filter (fun h => h.date == d) == raw.filter (fun h => h.date == d)

/-- Recommendations sorted ascending by `bridge_date` (for a Wednesday
pair this field is the earlier day, the Monday). -/
def claimC7check (canton : String) (year : Int) : Bool :=
  ascendingBy (·.bridge_date) (okList (calculate_bridge_days canton year))

/-- Every fixed rule denotes a constructible date in the given year. -/
def fixedRuleOk (year : Nat) : HolidayRule → Bool
  | .fixed month day => (mkDate? year month day).isSome
  | .movable _ => true

def claimC10check (canton : String) (year : Int) : Bool :=
  ((CANTON_HOLIDAYS.lookup canton).getD []).all
    (fun e => fixedRuleOk year.toNat e.2) &&
  isOk (get_holidays canton year)

/-- Keys of an association list are exactly the strings `List.lookup`
finds. -/
lemma lookup_isSome_iff {β : Type} (c : String) :
    ∀ l : List (String × β), (l.lookup c).isSome = true ↔ c ∈ l.map Prod.fst := by
  intro l
  induction l with
  | nil => simp [List.lookup]
  | cons p t ih =>
    obtain ⟨k, v⟩ := p
    by_cases hck : c = k
    · subst hck
      simp [List.lookup]
    · have hb : (c == k) = false := beq_eq_false_iff_ne.mpr hck
      simp [List.lookup, hb, ih, hck]

/-- An integer in `[2020, 2035]` is one of the 16 supported years. -/
lemma mem_supportedYears (y : Int) (h1 : 2020 ≤ y) (h2 : y ≤ 2035) :
    y ∈ supportedYears := by
  interval_cases y <;> decide

/-- Validation succeeds exactly on a known canton and an in-range year. -/
lemma validate_inputs_eq_none_iff (c : String) (y : Int) :
    validate_inputs c y = none ↔ c ∈ cantonCodes ∧ 2020 ≤ y ∧ y ≤ 2035 := by
  unfold validate_inputs
  rw [show VALID_YEAR_RANGE.1 = 2020 from rfl, show VALID_YEAR_RANGE.2 = 2035 from rfl]
  split_ifs with h1 h2
  · simp only [false_iff]
    rintro ⟨hc, -, -⟩
    rw [cantonCodes, ← lookup_isSome_iff] at hc
    rw [Option.isNone_iff_eq_none] at h1
    rw [h1] at hc
    cases hc
  · simp only [false_iff]
    rintro ⟨-, hlo, hhi⟩
    rcases h2 with h2 | h2
    · omega
    · omega
  · simp only [true_iff]
    refine ⟨?_, ?_, ?_⟩
    · rw [cantonCodes, ← lookup_isSome_iff]
      cases hx : CANTONS.lookup c with
      | none => rw [hx] at h1; exact absurd rfl h1
      | some v => rfl
    · omega
    · omega

/-- Success of the optimizer coincides with success of the resolver. -/
lemma calculate_isOk_eq (c : String) (y : Int) :
    isOk (calculate_bridge_days c y) = isOk (get_holidays c y) := by
  unfold calculate_bridge_days
  cases get_holidays c y <;> rfl

/-- C1: for every valid canton and supported year, every recommendation
of `calculate_bridge_days` follows the §4.5 weekday rule: a Tuesday
holiday yields the preceding Monday with 4 free days, a Thursday holiday
the following Friday with 4 free days, a Wednesday holiday the preceding
Monday–Tuesday pair with exactly 5 free days, and a holiday on any other
weekday yields no recommendation. -/
theorem claim_C1_weekday_rule :
    ∀ c ∈ cantonCodes, ∀ y ∈ supportedYears, claimC1check c y = true := by decide

theorem claim_C1_weekday_rule_witness :
    ("ZH" ∈ cantonCodes ∧ (2024 : Int) ∈ supportedYears) ∧
      claimC1check "ZH" 2024 = true :=
  ⟨⟨by decide, by decide⟩, claim_C1_weekday_rule "ZH" (by decide) 2024 (by decide)⟩

/-- C2: for every valid canton and supported year, every bridge day
(including both days of a Wednesday pair) differs from every resolved
holiday date, and no calendar date serves as a bridge day in two
different recommendations of the same call. -/
theorem claim_C2_bridge_disjoint_unique :
    ∀ c ∈ cantonCodes, ∀ y ∈ supportedYears, claimC2check c y = true := by decide

theorem claim_C2_bridge_disjoint_unique_witness :
    ("ZH" ∈ cantonCodes ∧ (2024 : Int) ∈ supportedYears) ∧
      claimC2check "ZH" 2024 = true :=
  ⟨⟨by decide, by decide⟩,
   claim_C2_bridge_disjoint_unique "ZH" (by decide) 2024 (by decide)⟩

/-- C3: processing holidays in ascending date order, a candidate bridge
day — and in the Wednesday case either day of the pair — is rejected
whenever it coincides with a resolved holiday date or was claimed by an
earlier-processed holiday, first claim winning: the implementation
agrees with the spec's conflict policy (`calculate_bridge_days_policy`)
on every valid input. -/
theorem claim_C3_conflict_policy :
    ∀ c ∈ cantonCodes, ∀ y ∈ supportedYears,
      calculate_bridge_days c y = calculate_bridge_days_policy c y := by decide

theorem claim_C3_conflict_policy_witness :
    ("ZH" ∈ cantonCodes ∧ (2024 : Int) ∈ supportedYears) ∧
      calculate_bridge_days "ZH" 2024 = calculate_bridge_days_policy "ZH" 2024 :=
  ⟨⟨by decide, by decide⟩,
   claim_C3_conflict_policy "ZH" (by decide) 2024 (by decide)⟩

/-- C4: for every year 2020–2035, `get_easter` returns a date between
March 22 and April 25 inclusive, and that date falls on a Sunday. -/
theorem claim_C4_easter_range_sunday :
    ∀ y ∈ List.range' 2020 16, claimC4check y = true := by decide

theorem claim_C4_easter_range_sunday_witness :
    2024 ∈ List.range' 2020 16 ∧ claimC4check 2024 = true :=
  ⟨by decide, claim_C4_easter_range_sunday 2024 (by decide)⟩

/-- C5: for every valid canton and supported year, `get_holidays`
returns a non-empty date-ascending list with no duplicate
`(name, date)` pair, and entries sharing a date keep catalog order
(stable sort). -/
theorem claim_C5_resolver_sorted :
    ∀ c ∈ cantonCodes, ∀ y ∈ supportedYears, claimC5check c y = true := by decide

theorem claim_C5_resolver_sorted_witness :
    ("ZH" ∈ cantonCodes ∧ (2024 : Int) ∈ supportedYears) ∧
      claimC5check "ZH" 2024 = true :=
  ⟨⟨by decide, by decide⟩, claim_C5_resolver_sorted "ZH" (by decide) 2024 (by decide)⟩

/-- C6: `get_holidays` and `calculate_bridge_days` fail exactly when the
canton is not one of the 26 codes or the year lies outside 2020–2035;
valid inputs never raise (an `Except.error` carries no holidays or
recommendations by construction). -/
theorem claim_C6_invalid_input_iff :
    ∀ (c : String) (y : Int),
      (isOk (get_holidays c y) = true ↔
        c ∈ cantonCodes ∧ 2020 ≤ y ∧ y ≤ 2035) ∧
      (isOk (calculate_bridge_days c y) = true ↔
        c ∈ cantonCodes ∧ 2020 ≤ y ∧ y ≤ 2035) := by
  have hfin : ∀ c ∈ cantonCodes, ∀ y ∈ supportedYears,
      isOk (get_holidays c y) = true := by decide
  intro c y
  have main : isOk (get_holidays c y) = true ↔
      c ∈ cantonCodes ∧ 2020 ≤ y ∧ y ≤ 2035 := by
    constructor
    · intro h
      rw [← validate_inputs_eq_none_iff]
      cases hv : validate_inputs c y with
      | none => rfl
      | some e =>
        unfold get_holidays at h
        rw [hv] at h
        cases h
    · rintro ⟨hc, h1, h2⟩
      exact hfin c hc y (mem_supportedYears y h1 h2)
  exact ⟨main, by rw [calculate_isOk_eq]; exact main⟩

theorem claim_C6_invalid_input_iff_witness :
    isOk (get_holidays "ZH" 2024) = true ∧ isOk (get_holidays "XX" 2024) = false :=
  ⟨(claim_C6_invalid_input_iff "ZH" 2024).1.mpr ⟨by decide, by decide, by decide⟩,
   by decide⟩

/-- C7: for every valid canton and supported year, the recommendations
are sorted ascending by bridge date (a Wednesday pair ordered by its
Monday, which is the stored `bridge_date`). -/
theorem claim_C7_output_sorted :
    ∀ c ∈ cantonCodes, ∀ y ∈ supportedYears, claimC7check c y = true := by decide

theorem claim_C7_output_sorted_witness :
    ("ZH" ∈ cantonCodes ∧ (2024 : Int) ∈ supportedYears) ∧
      claimC7check "ZH" 2024 = true :=
  ⟨⟨by decide, by decide⟩, claim_C7_output_sorted "ZH" (by decide) 2024 (by decide)⟩

/-- C8: canton ZH, year 2024: Easter Sunday is March 31; Good Friday
(Karfreitag) resolves to March 29; Ascension (Auffahrt) resolves to
May 9, a Thursday; and the bridge recommendations contain one for
May 10 (a Friday) with 4 free days. -/
theorem claim_C8_zh_2024 :
    get_easter 2024 = some (toRD 2024 3 31) ∧
    easter_offset (-2) 2024 = some (toRD 2024 3 29) ∧
    (∃ h ∈ okList (get_holidays "ZH" 2024),
      h.name = "Karfreitag" ∧ h.date = toRD 2024 3 29) ∧
    (∃ h ∈ okList (get_holidays "ZH" 2024),
      h.name = "Auffahrt (Christi Himmelfahrt)" ∧ h.date = toRD 2024 5 9 ∧
        weekday h.date = 3) ∧
    (∃ r ∈ okList (calculate_bridge_days "ZH" 2024),
      r.holiday_name = "Auffahrt (Christi Himmelfahrt)" ∧
        r.bridge_date = toRD 2024 5 10 ∧ weekday r.bridge_date = 4 ∧
        r.free_days = 4) := by decide

/-- C9: `get_holidays` and `calculate_bridge_days` are deterministic
pure functions — equal inputs give equal outputs, field by field and in
order. -/
theorem claim_C9_deterministic :
    ∀ (c₁ c₂ : String) (y₁ y₂ : Int), c₁ = c₂ → y₁ = y₂ →
      get_holidays c₁ y₁ = get_holidays c₂ y₂ ∧
      calculate_bridge_days c₁ y₁ = calculate_bridge_days c₂ y₂ := by
  intro c₁ c₂ y₁ y₂ hc hy
  subst hc
  subst hy
  exact ⟨rfl, rfl⟩

theorem claim_C9_deterministic_witness :
    get_holidays "ZH" 2024 = get_holidays "ZH" 2024 ∧
    calculate_bridge_days "ZH" 2024 = calculate_bridge_days "ZH" 2024 :=
  claim_C9_deterministic "ZH" "ZH" 2024 2024 rfl rfl

/-- C10: every fixed `(month, day)` rule of the catalog denotes a valid
calendar day in every supported year (no February 29 or out-of-range
day), so for valid inputs date construction in `get_holidays` never
fails and the call succeeds. -/
theorem claim_C10_fixed_rules_valid :
    ∀ c ∈ cantonCodes, ∀ y ∈ supportedYears, claimC10check c y = true := by decide

theorem claim_C10_fixed_rules_valid_witness :
    ("ZH" ∈ cantonCodes ∧ (2024 : Int) ∈ supportedYears) ∧
      claimC10check "ZH" 2024 = true :=
  ⟨⟨by decide, by decide⟩,
   claim_C10_fixed_rules_valid "ZH" (by decide) 2024 (by decide)⟩

end SwissHolidays

